import Mathlib

/-!
Verification of the FluidSynth MIDI handler (`src/midi/midi_fluidsynth.cpp`
of dosbox-staging): a shallow embedding of the handler state and of the
operations `SetMixerVolume`, `Open`, `Close`, `PlayMsg` and `MixerCallBack`,
with theorems about gain calibration, message dispatch, the chunked render
loop, and the open/close lifecycle.

Floating-point values are modelled exactly: a float is either a finite
rational or one of the IEEE-754 special values (positive infinity, negative
infinity, NaN).  Rounding is not modelled (every claim here is about the
structure of the computation, not about rounding error), but the IEEE
behaviour of division by zero, comparisons with NaN, and arithmetic on the
special values is, since the pre-scale computation can divide by zero.
-/

/-- An exact model of an IEEE-754 floating-point value: a finite rational,
or one of the special values. -/
inductive FloatVal where
  | finite (q : ℚ)
  | inf
  | neginf
  | nan
deriving DecidableEq

namespace FloatVal

/-- IEEE-754 `<` as a Boolean test: comparisons involving NaN are false. -/
def ltb : FloatVal → FloatVal → Bool
  | nan, _ => false
  | _, nan => false
  | neginf, neginf => false
  | neginf, _ => true
  | _, neginf => false
  | finite a, finite b => decide (a < b)
  | finite _, inf => true
  | inf, _ => false

/-- `std::min(a, b)` is `(b < a) ? b : a`. -/
def fmin (a b : FloatVal) : FloatVal := if ltb b a then b else a

/-- IEEE-754 multiplication on the exact model (no rounding). -/
def mul : FloatVal → FloatVal → FloatVal
  | nan, _ => nan
  | _, nan => nan
  | finite a, finite b => finite (a * b)
  | finite a, inf => if a = 0 then nan else if 0 < a then inf else neginf
  | inf, finite b => if b = 0 then nan else if 0 < b then inf else neginf
  | finite a, neginf => if a = 0 then nan else if 0 < a then neginf else inf
  | neginf, finite b => if b = 0 then nan else if 0 < b then neginf else inf
  | inf, inf => inf
  | neginf, neginf => inf
  | inf, neginf => neginf
  | neginf, inf => neginf

/-- IEEE-754 division on the exact model (no rounding): a nonzero finite
value divided by zero gives a signed infinity, `0 / 0` gives NaN. -/
def div : FloatVal → FloatVal → FloatVal
  | nan, _ => nan
  | _, nan => nan
  | finite a, finite b =>
      if b = 0 then (if a = 0 then nan else if 0 < a then inf else neginf)
      else finite (a / b)
  | finite _, inf => finite 0
  | finite _, neginf => finite 0
  | inf, finite b => if b < 0 then neginf else inf
  | neginf, finite b => if b < 0 then inf else neginf
  | inf, inf => nan
  | inf, neginf => nan
  | neginf, inf => nan
  | neginf, neginf => nan

end FloatVal

/-- `AudioFrame<float>`: a left/right pair of floating-point values. -/
structure AudioFrame where
  left : FloatVal
  right : FloatVal
deriving DecidableEq

/-- `INT16_MAX` as a floating-point constant. -/
def INT16_MAX : FloatVal := .finite 32767

/-- The state of a `MidiHandlerFluidsynth` object.  The opaque engine
handles (`settings`, `synth`) are modelled by their presence; the mixer
channel by its presence together with its enabled flag; the engine gain
parameter (the value stored under the `synth.gain` settings key) is lifted
into the state so that `SetMixerVolume`'s write to it is visible. -/
structure FSynthState where
  is_open : Bool
  settings : Option Unit
  synth : Option Unit
  channel : Option Bool
  engine_gain : FloatVal
  prescale_volume : AudioFrame
  mixer_volume : AudioFrame
deriving DecidableEq

/-- Whether the handler has an enabled mixer channel. -/
def channelEnabled (s : FSynthState) : Bool :=
  s.channel.getD false

/-- `MidiHandlerFluidsynth::SetMixerVolume`.  The engine may clamp or
quantize the gain pushed into `synth.gain`; that external behaviour is the
parameter `clamp`, so the value stored by `fluid_settings_setnum` and read
back by `fluid_settings_getnum` is `clamp gain`. -/
def SetMixerVolume (clamp : FloatVal → FloatVal) (desired_volume : AudioFrame)
    (s : FSynthState) : FSynthState :=
  let gain := FloatVal.fmin desired_volume.left desired_volume.right
  let gain_f := clamp gain
  { s with
    engine_gain := clamp gain,
    prescale_volume :=
      ⟨INT16_MAX.mul (desired_volume.left.div gain_f),
       INT16_MAX.mul (desired_volume.right.div gain_f)⟩,
    mixer_volume := desired_volume }

/-- `MidiHandlerFluidsynth::Close`: an early return when the handler is not
open; otherwise disable the channel and release channel, synth and settings
in that order. -/
def Close (s : FSynthState) : FSynthState :=
  if !s.is_open then s
  else { s with
         channel := none,
         synth := none,
         settings := none,
         is_open := false }

/-- The outcome of the external allocations performed by `Open`:
whether `new_fluid_settings` and `new_fluid_synth` return non-null. -/
structure OpenEnv where
  settings_ok : Bool
  synth_ok : Bool
deriving DecidableEq

/-- `MidiHandlerFluidsynth::Open`: close first; create the settings object
(failure returns false); move it into the member; create the synthesizer
(failure returns false); move it into the member; create the mixer channel,
enable it, and mark the handler open. -/
def Open (env : OpenEnv) (s : FSynthState) : Bool × FSynthState :=
  let s0 := Close s
  if env.settings_ok = false then (false, s0)
  else
    let s1 := { s0 with settings := some () }
    if env.synth_ok = false then (false, s1)
    else
      let s2 := { s1 with synth := some () }
      let s3 := { s2 with channel := some true }
      (true, { s3 with is_open := true })

/-- The observable result of one `MixerCallBack` invocation: the list of
deliveries made to the mixer channel (each delivery is the list of engine
stream frame indices it contains, so order, gaps and duplication are
visible), the final value of the `frames` counter, and the number of loop
iterations executed. -/
structure RunResult where
  deliveries : List (List ℕ)
  remaining : ℕ
  iters : ℕ
deriving DecidableEq

/-- The `while (frames > 0)` loop of `MidiHandlerFluidsynth::MixerCallBack`.
Each iteration takes `len = min frames max_frames`, pulls the next `len`
frames of the engine stream (`fluid_synth_write_float`), passes them through
the soft limiter (frame-count preserving) and delivers them to the channel
(`AddSamples_s16`), then does `frames -= len`.  The engine stream is
abstracted to its frame indices; `pos` is the stream position.  The
recursion is made structural with a fuel argument; the loop consumes at
least one frame per iteration whenever `max_frames > 0`, so a fuel equal to
the initial `frames` is never exhausted (proved below). -/
def mixerRun (max_frames : ℕ) : ℕ → ℕ → ℕ → RunResult
  | 0, frames, _ => ⟨[], frames, 0⟩
  | fuel + 1, frames, pos =>
    if frames = 0 then ⟨[], 0, 0⟩
    else
      let len := min frames max_frames
      let rest := mixerRun max_frames fuel (frames - len) (pos + len)
      ⟨(List.range len).map (pos + ·) :: rest.deliveries, rest.remaining, rest.iters + 1⟩

/-- `MidiHandlerFluidsynth::MixerCallBack frames`, run from stream
position 0 with fuel `frames`. -/
def MixerCallBack (max_frames frames : ℕ) : RunResult :=
  mixerRun max_frames frames frames 0

/-- The engine calls `PlayMsg` can make, with their arguments. -/
inductive EngineCall where
  | noteoff (chan key : ℕ)
  | noteon (chan key vel : ℕ)
  | key_pressure (chan key val : ℕ)
  | cc (chan ctrl val : ℕ)
  | program_change (chan prog : ℕ)
  | channel_pressure (chan val : ℕ)
  | pitch_bend (chan val : ℕ)
deriving DecidableEq

/-- A diagnostic log entry; the unknown-command message carries the raw
message bytes. -/
inductive LogEvent where
  | unknownCommand (b0 b1 b2 : ℕ)
deriving DecidableEq

/-- `MidiHandlerFluidsynth::PlayMsg`: decode `msg[0]` into channel
(low nibble) and message class (high nibble), switch on the class, and
forward the data bytes to the matching engine operation; unknown classes
log the raw bytes and make no engine call.  The result is the list of
engine calls made and the list of log messages emitted. -/
def PlayMsg (b0 b1 b2 : ℕ) : List EngineCall × List LogEvent :=
  let chanID := b0 &&& 0b1111
  let cls := b0 &&& 0b11110000
  if cls = 0b10000000 then ([.noteoff chanID b1], [])
  else if cls = 0b10010000 then ([.noteon chanID b1 b2], [])
  else if cls = 0b10100000 then ([.key_pressure chanID b1 b2], [])
  else if cls = 0b10110000 then ([.cc chanID b1 b2], [])
  else if cls = 0b11000000 then ([.program_change chanID b1], [])
  else if cls = 0b11010000 then ([.channel_pressure chanID b1], [])
  else if cls = 0b11100000 then ([.pitch_bend chanID (b1 + (b2 <<< 7))], [])
  else ([], [.unknownCommand b0 b1 b2])

/-- Dispatch a sequence of messages one after the other, accumulating the
engine calls and the log messages in order.  `PlayMsg` holds no state, so
this is a plain concatenation. -/
def playSequence : List (ℕ × ℕ × ℕ) → List EngineCall × List LogEvent
  | [] => ([], [])
  | (b0, b1, b2) :: rest =>
    let r := PlayMsg b0 b1 b2
    let rs := playSequence rest
    (r.1 ++ rs.1, r.2 ++ rs.2)

/-- A concrete closed handler state, used as an input in witnesses. -/
def initState : FSynthState :=
  ⟨false, none, none, none, .finite 0, ⟨.finite 0, .finite 0⟩, ⟨.finite 0, .finite 0⟩⟩

/-- Claim C6: setting the mixer volume then reading back the retained
last-known external volume returns exactly the pair that was set. -/
theorem mixer_volume_roundtrip (clamp : FloatVal → FloatVal) (v : AudioFrame)
    (s : FSynthState) : (SetMixerVolume clamp v s).mixer_volume = v := rfl

/-- The render loop, started with fuel at least `frames` and a positive
per-call maximum, delivers exactly the next `frames` stream indices in
order, drains the frame counter to zero, and runs at most `frames`
iterations. -/
theorem mixerRun_spec (m : ℕ) (hm : 0 < m) :
    ∀ fuel frames pos, frames ≤ fuel →
      (mixerRun m fuel frames pos).deliveries.flatten =
          (List.range frames).map (pos + ·) ∧
        (mixerRun m fuel frames pos).remaining = 0 ∧
        (mixerRun m fuel frames pos).iters ≤ frames := by
  intro fuel
  induction fuel with
  | zero =>
    intro frames pos h
    have hf : frames = 0 := Nat.le_zero.mp h
    subst hf
    simp [mixerRun]
  | succ n ih =>
    intro frames pos h
    by_cases hf : frames = 0
    · subst hf
      simp [mixerRun]
    · have hlen1 : 1 ≤ min frames m := le_min (Nat.one_le_iff_ne_zero.mpr hf) hm
      have hlen_le : min frames m ≤ frames := min_le_left _ _
      have hrec := ih (frames - min frames m) (pos + min frames m) (by omega)
      have hsum : min frames m + (frames - min frames m) = frames := by omega
      have hr := List.range_add (min frames m) (frames - min frames m)
      rw [hsum] at hr
      have key : (List.range (min frames m)).map (pos + ·) ++
          (List.range (frames - min frames m)).map (pos + min frames m + ·) =
          (List.range frames).map (pos + ·) := by
        rw [hr, List.map_append, List.map_map]
        simp [Function.comp, Nat.add_assoc]
      simp only [mixerRun, if_neg hf, List.flatten_cons]
      exact ⟨by rw [hrec.1, key], hrec.2.1, by omega⟩

/-- Claim C2: for every requested frame count `F` (including counts above
the per-call maximum), the render callback delivers exactly `F` frames to
the output sink, in order, with no gaps or duplication: the concatenation
of the deliveries is exactly the index range `0, ..., F - 1`. -/
theorem mixerCallBack_delivers_all (max_frames : ℕ) (hm : 0 < max_frames)
    (frames : ℕ) :
    (MixerCallBack max_frames frames).deliveries.flatten = List.range frames := by
  have h := (mixerRun_spec max_frames hm frames frames 0 le_rfl).1
  simpa [MixerCallBack] using h

/-- Witness for claim C2 at a maximum of 3 frames per call and a request of
3 * 3 + 17 = 26 frames. -/
theorem mixerCallBack_delivers_all_witness :
    0 < 3 ∧ (MixerCallBack 3 26).deliveries.flatten = List.range 26 :=
  ⟨by decide, mixerCallBack_delivers_all 3 (by decide) 26⟩

/-- Claim C9: the render callback terminates when the per-call maximum is
at least 1: every iteration on a nonzero counter strictly decreases it, the
counter reaches exactly zero, and the loop runs at most `frames`
iterations. -/
theorem mixerCallBack_terminates (max_frames : ℕ) (hm : 0 < max_frames)
    (frames : ℕ) :
    (∀ r, 0 < r → r - min r max_frames < r) ∧
      (MixerCallBack max_frames frames).remaining = 0 ∧
      (MixerCallBack max_frames frames).iters ≤ frames := by
  have h := mixerRun_spec max_frames hm frames frames 0 le_rfl
  exact ⟨fun r hr => by omega, h.2.1, h.2.2⟩

/-- Witness for claim C9 at a maximum of 3 frames per call and a request of
26 frames. -/
theorem mixerCallBack_terminates_witness :
    0 < 3 ∧ (MixerCallBack 3 26).remaining = 0 ∧
      (MixerCallBack 3 26).iters ≤ 26 :=
  ⟨by decide, (mixerCallBack_terminates 3 (by decide) 26).2.1,
    (mixerCallBack_terminates 3 (by decide) 26).2.2⟩

/-- Claim C1: for every desired stereo volume, `SetMixerVolume` computes
the engine gain as the minimum of the left and right volumes, pushes it
into the engine gain parameter, reads the effective (possibly clamped)
gain back, and sets the pre-scale of each channel `c` to
`INT16_MAX * (desired[c] / effective_gain)`. -/
theorem setMixerVolume_calibration (clamp : FloatVal → FloatVal)
    (v : AudioFrame) (s : FSynthState) :
    (SetMixerVolume clamp v s).engine_gain =
        clamp (FloatVal.fmin v.left v.right) ∧
      (SetMixerVolume clamp v s).prescale_volume =
        ⟨INT16_MAX.mul (v.left.div (clamp (FloatVal.fmin v.left v.right))),
         INT16_MAX.mul (v.right.div (clamp (FloatVal.fmin v.left v.right)))⟩ :=
  ⟨rfl, rfl⟩

/-- Claim C10: `SetMixerVolume` changes only the pre-scale pair, the
retained mixer volume and the engine gain setting; the open flag, the
synth and settings handles and the mixer channel are untouched, and both
pre-scale channels are written together, derived from one and the same
effective gain. -/
theorem setMixerVolume_frame (clamp : FloatVal → FloatVal) (v : AudioFrame)
    (s : FSynthState) :
    (SetMixerVolume clamp v s).is_open = s.is_open ∧
      (SetMixerVolume clamp v s).settings = s.settings ∧
      (SetMixerVolume clamp v s).synth = s.synth ∧
      (SetMixerVolume clamp v s).channel = s.channel ∧
      ∃ g : FloatVal, (SetMixerVolume clamp v s).prescale_volume =
        ⟨INT16_MAX.mul (v.left.div g), INT16_MAX.mul (v.right.div g)⟩ :=
  ⟨rfl, rfl, rfl, rfl, clamp (FloatVal.fmin v.left v.right), rfl⟩

/-- Claim C3, evaluated at the failing input: with an engine that stores
the gain exactly as pushed, setting the desired volume `(0, 1)` pushes
`gain = min 0 1 = 0`, the readback is `0`, and the pre-scale division is
performed with the zero divisor, with no guard and no fallback: the left
channel computes `32767 * (0 / 0) = NaN` and the right channel
`32767 * (1 / 0) = +inf`. -/
theorem setMixerVolume_zero_gain_unguarded :
    (SetMixerVolume id ⟨.finite 0, .finite 1⟩ initState).engine_gain =
        .finite 0 ∧
      (SetMixerVolume id ⟨.finite 0, .finite 1⟩ initState).prescale_volume =
        ⟨.nan, .inf⟩ := by
  decide

/-- Claim C7: if creation of the settings object or of the synthesizer
fails during `Open`, then `Open` returns false and the handler remains
closed: the open flag is false and no mixer channel is enabled.  (The
channel hypothesis rules out unreachable states that are closed yet hold
an enabled channel.) -/
theorem open_failure_stays_closed (env : OpenEnv) (s : FSynthState)
    (hwf : s.is_open = false → channelEnabled s = false)
    (h : env.settings_ok = false ∨ env.synth_ok = false) :
    (Open env s).1 = false ∧ (Open env s).2.is_open = false ∧
      channelEnabled (Open env s).2 = false := by
  have hopen : (Close s).is_open = false := by
    by_cases hs : s.is_open <;> simp [Close, hs]
  have hch : channelEnabled (Close s) = false := by
    by_cases hs : s.is_open
    · simp [Close, hs, channelEnabled]
    · have heq : Close s = s := by simp [Close, hs]
      rw [heq]
      exact hwf (by simpa using hs)
  rcases h with h1 | h2
  · simp [Open, h1, hopen, hch]
  · by_cases h1 : env.settings_ok = false
    · simp [Open, h1, hopen, hch]
    · simp only [channelEnabled] at hch
      simp [Open, h1, h2, hopen, hch, channelEnabled]

/-- Witness for claim C7: a failed settings allocation on the initial
state returns false and leaves the handler closed. -/
theorem open_failure_stays_closed_witness :
    (initState.is_open = false → channelEnabled initState = false) ∧
      ((⟨false, true⟩ : OpenEnv).settings_ok = false ∨
        (⟨false, true⟩ : OpenEnv).synth_ok = false) ∧
      (Open ⟨false, true⟩ initState).1 = false ∧
      (Open ⟨false, true⟩ initState).2.is_open = false ∧
      channelEnabled (Open ⟨false, true⟩ initState).2 = false :=
  ⟨fun _ => rfl, Or.inl rfl,
    open_failure_stays_closed ⟨false, true⟩ initState (fun _ => rfl) (Or.inl rfl)⟩

/-- Claim C8: `Close` on an already-closed handler is a no-op that changes
no state, and on every state `Close` twice equals `Close` once. -/
theorem close_idempotent (s : FSynthState) :
    Close (Close s) = Close s ∧ (s.is_open = false → Close s = s) := by
  constructor
  · by_cases hs : s.is_open <;> simp [Close, hs]
  · intro h
    simp [Close, h]

/-- Witness for claim C8: `Close` on the concrete closed initial state is
a no-op. -/
theorem close_idempotent_witness :
    initState.is_open = false ∧ Close initState = initState :=
  ⟨rfl, (close_idempotent initState).2 rfl⟩

/-- Claim C4: for every message whose status high nibble is a recognized
class, dispatch makes exactly one engine call of the matching operation,
with channel equal to the low nibble of the status byte and the data bytes
forwarded verbatim; the pitch bend value is `data1 + (data2 <<< 7)`, so the
bytes `(0xE0, 0x00, 0x40)` yield bend value 8192. -/
theorem playMsg_dispatch (b0 b1 b2 : ℕ) :
    (b0 &&& 0b11110000 = 0b10000000 →
      PlayMsg b0 b1 b2 = ([.noteoff (b0 &&& 0b1111) b1], [])) ∧
    (b0 &&& 0b11110000 = 0b10010000 →
      PlayMsg b0 b1 b2 = ([.noteon (b0 &&& 0b1111) b1 b2], [])) ∧
    (b0 &&& 0b11110000 = 0b10100000 →
      PlayMsg b0 b1 b2 = ([.key_pressure (b0 &&& 0b1111) b1 b2], [])) ∧
    (b0 &&& 0b11110000 = 0b10110000 →
      PlayMsg b0 b1 b2 = ([.cc (b0 &&& 0b1111) b1 b2], [])) ∧
    (b0 &&& 0b11110000 = 0b11000000 →
      PlayMsg b0 b1 b2 = ([.program_change (b0 &&& 0b1111) b1], [])) ∧
    (b0 &&& 0b11110000 = 0b11010000 →
      PlayMsg b0 b1 b2 = ([.channel_pressure (b0 &&& 0b1111) b1], [])) ∧
    (b0 &&& 0b11110000 = 0b11100000 →
      PlayMsg b0 b1 b2 = ([.pitch_bend (b0 &&& 0b1111) (b1 + (b2 <<< 7))], [])) ∧
    PlayMsg 0xE0 0x00 0x40 = ([.pitch_bend 0 8192], []) :=
  ⟨fun h => by simp [PlayMsg, h], fun h => by simp [PlayMsg, h],
    fun h => by simp [PlayMsg, h], fun h => by simp [PlayMsg, h],
    fun h => by simp [PlayMsg, h], fun h => by simp [PlayMsg, h],
    fun h => by simp [PlayMsg, h], by decide⟩

/-- Witness for claim C4: the note-on message `(0x90, 60, 100)` dispatches
to exactly one note-on engine call on channel 0. -/
theorem playMsg_dispatch_witness :
    (0x90 &&& 0b11110000 = 0b10010000) ∧
      PlayMsg 0x90 60 100 = ([.noteon (0x90 &&& 0b1111) 60 100], []) :=
  ⟨by decide, (playMsg_dispatch 0x90 60 100).2.1 (by decide)⟩

/-- Claim C5: a message whose status high nibble is not a recognized class
produces zero engine calls and one diagnostic log entry carrying the raw
bytes, and a following message dispatches exactly as it would alone (the
dispatcher holds no state an unknown byte could corrupt). -/
theorem playMsg_unknown (u0 u1 u2 : ℕ)
    (hu : u0 &&& 0b11110000 ∉ [128, 144, 160, 176, 192, 208, 224]) :
    (PlayMsg u0 u1 u2).1 = [] ∧
      (PlayMsg u0 u1 u2).2 = [.unknownCommand u0 u1 u2] ∧
      ∀ m0 m1 m2, playSequence [(u0, u1, u2), (m0, m1, m2)] =
        ((PlayMsg m0 m1 m2).1,
          LogEvent.unknownCommand u0 u1 u2 :: (PlayMsg m0 m1 m2).2) := by
  simp only [List.mem_cons, List.not_mem_nil, or_false, not_or] at hu
  obtain ⟨h1, h2, h3, h4, h5, h6, h7⟩ := hu
  have hmsg : PlayMsg u0 u1 u2 = ([], [.unknownCommand u0 u1 u2]) := by
    simp [PlayMsg, h1, h2, h3, h4, h5, h6, h7]
  refine ⟨by rw [hmsg], by rw [hmsg], fun m0 m1 m2 => ?_⟩
  simp [playSequence, hmsg]

/-- Witness for claim C5: the system real-time byte `0xF8` yields zero
engine calls and a logged diagnostic, and a note-on right after it still
dispatches. -/
theorem playMsg_unknown_witness :
    ((0xF8 &&& 0b11110000) ∉ [128, 144, 160, 176, 192, 208, 224]) ∧
      (PlayMsg 0xF8 0 0).1 = [] ∧
      (PlayMsg 0xF8 0 0).2 = [.unknownCommand 0xF8 0 0] ∧
      playSequence [(0xF8, 0, 0), (0x90, 60, 100)] =
        ((PlayMsg 0x90 60 100).1,
          LogEvent.unknownCommand 0xF8 0 0 :: (PlayMsg 0x90 60 100).2) :=
  ⟨by decide, (playMsg_unknown 0xF8 0 0 (by decide)).1,
    (playMsg_unknown 0xF8 0 0 (by decide)).2.1,
    (playMsg_unknown 0xF8 0 0 (by decide)).2.2 0x90 60 100⟩
